import Mathlib

/-!
Verification development for the `fastoblig` grading workflow.

Shallow embedding of the submission lifecycle state machine and phase
driver (`src/fastoblig/assessment.py`), the reconciliation engine
(`Storage.upsert_submissions` in `src/fastoblig/storage.py`) and the
file-change classifier (`src/fastoblig/feedback.py`).

Modelling conventions:

* The staged storage layer is embedded together with its failure points.
  The `submissions` DDL (storage.py lines 64-81) defines no
  `submission_type` column, yet the SELECT of `get_submissions`
  (line 539), the INSERT of `upsert_submissions` (line 843) and the
  UPDATE statements (lines 732-767 and 806-837) all name that column, so
  sqlite refuses to prepare each of these statements; and
  `domain.Submission` defines no `members` attribute (its student-id list
  is the field `contributions`), so the attribute reads at storage.py
  lines 791 and 876 raise `AttributeError`.  Fallible calls are therefore
  embedded as `Except PyError` values, with an `Except.error` at each
  point the staged source raises.
* Python `dict` comprehensions keyed by an id keep the *last* entry for a
  duplicated key; lookups are modelled accordingly (`lookupLast`,
  `old_indexed`).
* `float` grades are only stored and compared for equality by the code
  under study, never computed with; they are modelled as `Option Int`;
  `datetime` fields of the in-memory `Submission` are opaque instants
  (`Option Int`).
-/

/-- `domain.SubmissionState`: the totally ordered lifecycle states. -/
inductive SubmissionState where
  | UNSUBMITTED
  | SUBMITTED
  | FAILED_IMPORTED
  | PASSED_IMPORTED
  | CHECKED_OUT
  | TESTED
  | FEEDBACK_GENERATED
  | FEEDBACK_PUBLISHED
  | FAILED
  | PASSED
deriving DecidableEq, Repr

/-- The ordinal (`.value`) of each state, as assigned in `domain.py`. -/
def SubmissionState.value : SubmissionState → Nat
  | .UNSUBMITTED => 0
  | .SUBMITTED => 1
  | .FAILED_IMPORTED => 2
  | .PASSED_IMPORTED => 3
  | .CHECKED_OUT => 4
  | .TESTED => 5
  | .FEEDBACK_GENERATED => 6
  | .FEEDBACK_PUBLISHED => 7
  | .FAILED => 8
  | .PASSED => 9

/-- `storage.UpdateResult`: the per-submission reconciliation outcome tag. -/
inductive UpdateResult where
  | UNCHANGED
  | NEW
  | MODIFIED
  | REMOVED
  | REJECTED
deriving DecidableEq, Repr

/-- `domain.Submission` (the in-memory pydantic model).  `model_dump()`
equality between two submissions is field-for-field equality, i.e.
structural equality of this record.  The model defines no `members`
attribute: the student-id list is the field `contributions`. -/
structure Submission where
  id : Int
  exercise : Int
  content : Option String
  state : SubmissionState
  contributions : List Int
  submission_type : Option String
  submission_group_id : Option Int
  submission_group_name : Option String
  submitted_at : Option Int := none
  graded_at : Option Int := none
  extended_to : Option Int := none
  grade : Option Int := none
  testresult_file : Option String := none
  comment_file : Option String := none
  feedback_file : Option String := none
deriving DecidableEq, Repr

/-- Lookup in an association list built by repeated Python dict assignment:
the entry written last wins. -/
def lookupLast {β : Type} (l : List (Int × β)) (k : Int) : Option β :=
  (l.reverse.find? (fun p => p.1 == k)).map (fun p => p.2)

/-- `is_resubmit(old_s, new_s)` inside `upsert_submissions`: the one
permitted state regression. -/
def is_resubmit (old_s new_s : Submission) : Bool :=
  (old_s.state == SubmissionState.FAILED || old_s.state == SubmissionState.FAILED_IMPORTED)
    && new_s.state == SubmissionState.SUBMITTED

/-- The guard of the `REJECTED` branch of `upsert_submissions` (line 802):
`not force and new.state.value < old_submission.state.value and not
is_resubmit(old_submission, new)`. -/
def rejectCond (force : Bool) (old_submission new : Submission) : Bool :=
  !force && decide (new.state.value < old_submission.state.value)
    && !is_resubmit old_submission new

/-- `assessment.AssessmentPhase`. -/
inductive AssessmentPhase where
  | DOWNLOADING
  | TESTING
  | EVALUATION
  | PUBLISHING
  | FINISHING
deriving DecidableEq, Repr

/-- The text of the `ValueError` raised by `AssessmentPhase.next` for a
state with no mapped phase. -/
def noPhaseMsg (state : SubmissionState) : String :=
  "State has not follow-up phase: " ++ (repr state).pretty

/-- `AssessmentPhase.next(state)`: the state-to-next-phase mapping; raising
`ValueError` is modelled as `Except.error`. -/
def AssessmentPhase.next (state : SubmissionState) : Except String AssessmentPhase :=
  if state = SubmissionState.SUBMITTED then Except.ok AssessmentPhase.DOWNLOADING
  else if state = SubmissionState.CHECKED_OUT then Except.ok AssessmentPhase.TESTING
  else if state = SubmissionState.TESTED then Except.ok AssessmentPhase.EVALUATION
  else if state = SubmissionState.FEEDBACK_GENERATED then Except.ok AssessmentPhase.PUBLISHING
  else if state = SubmissionState.FEEDBACK_PUBLISHED then Except.ok AssessmentPhase.FINISHING
  else Except.error (noPhaseMsg state)

/-- The external decisions and outcomes one `Assessor.assess()` round can
depend on: each field stands for one interactive confirmation or one
external-call outcome in `assessment.py`, in source order. -/
structure PhaseEnv where
  /-- the `:play_button: Proceed?` confirmation in `assess()` -/
  proceed : Bool
  /-- `description_type == "git_repo"` with `grading_path` and `content` set -/
  repoSupported : Bool
  /-- the submission working directory already exists (`_do_checkout`) -/
  dirAlreadyExists : Bool
  /-- `git.Repo.clone_from` succeeded (no `GitCommandError`) -/
  cloneOk : Bool
  /-- operator chose AI evaluation (`_do_evaluation`) -/
  useAI : Bool
  /-- an OpenAI token is stored -/
  openaiTokenPresent : Bool
  /-- `read_feedback_xml` found a non-empty review (`_do_publish`) -/
  feedbackNonEmpty : Bool
  /-- `submission.content.startswith("https://github.com")` -/
  contentIsGithub : Bool
  /-- operator confirmed the upload (GitHub issue or LMS comment) -/
  confirmUpload : Bool
  /-- a GitHub token is stored -/
  githubTokenPresent : Bool
  /-- operator confirmed concluding the publish step without posting -/
  concludeAnyway : Bool
  /-- final grade maps to pass (`_do_finish`) -/
  gradePass : Bool
deriving DecidableEq, Repr

/-- A round environment in which every confirmation is granted and every
external call succeeds. -/
def allYesEnv : PhaseEnv :=
  { proceed := true
    repoSupported := true
    dirAlreadyExists := false
    cloneOk := true
    useAI := true
    openaiTokenPresent := true
    feedbackNonEmpty := true
    contentIsGithub := true
    confirmUpload := true
    githubTokenPresent := true
    concludeAnyway := true
    gradePass := true }

/-- C6: `AssessmentPhase.next` maps `SUBMITTED` to `DOWNLOADING`,
`CHECKED_OUT` to `TESTING`, `TESTED` to `EVALUATION`, `FEEDBACK_GENERATED`
to `PUBLISHING` and `FEEDBACK_PUBLISHED` to `FINISHING`, and fails with an
error for each of the five remaining states, so it never returns a phase
for a state with no mapping. -/
theorem next_phase_mapping :
    AssessmentPhase.next SubmissionState.SUBMITTED = Except.ok AssessmentPhase.DOWNLOADING
    ∧ AssessmentPhase.next SubmissionState.CHECKED_OUT = Except.ok AssessmentPhase.TESTING
    ∧ AssessmentPhase.next SubmissionState.TESTED = Except.ok AssessmentPhase.EVALUATION
    ∧ AssessmentPhase.next SubmissionState.FEEDBACK_GENERATED
        = Except.ok AssessmentPhase.PUBLISHING
    ∧ AssessmentPhase.next SubmissionState.FEEDBACK_PUBLISHED
        = Except.ok AssessmentPhase.FINISHING
    ∧ AssessmentPhase.next SubmissionState.UNSUBMITTED
        = Except.error (noPhaseMsg SubmissionState.UNSUBMITTED)
    ∧ AssessmentPhase.next SubmissionState.FAILED_IMPORTED
        = Except.error (noPhaseMsg SubmissionState.FAILED_IMPORTED)
    ∧ AssessmentPhase.next SubmissionState.PASSED_IMPORTED
        = Except.error (noPhaseMsg SubmissionState.PASSED_IMPORTED)
    ∧ AssessmentPhase.next SubmissionState.FAILED
        = Except.error (noPhaseMsg SubmissionState.FAILED)
    ∧ AssessmentPhase.next SubmissionState.PASSED
        = Except.error (noPhaseMsg SubmissionState.PASSED) :=
  ⟨rfl, rfl, rfl, rfl, rfl, rfl, rfl, rfl, rfl, rfl⟩

/-- `feedback.SubmissionFileState` (imported in `assessment.py`; the spec's
`FileClassification`): the per-path classification tags. -/
inductive SubmissionFileState where
  | UNCHANGED
  | NEW
  | CHANGED
  | IGNORED
  | OLD
deriving DecidableEq, Repr

/-- A path inside a submission checkout, relative to the checkout root:
its components and whether it is a regular file (`Path.is_file()`). -/
structure SubPath where
  segs : List String
  isFile : Bool
deriving DecidableEq, Repr

/-- `str(p.relative_to(project))`: the relative path text. -/
def SubPath.pname (p : SubPath) : String := String.intercalate "/" p.segs

/-- `p.name`: the final path component. -/
def SubPath.fname (p : SubPath) : String := p.segs.getLastD ""

/-- Python `PurePath.suffix` of a file name: the extension from the last
dot, but only when that dot is neither the first nor the last character
(so `".hidden"` and `"x."` have no suffix). -/
def pySuffix (name : String) : String :=
  let rev := name.toList.reverse
  let pre := rev.takeWhile (fun c => c ≠ '.')
  if pre.length < rev.length && 0 < pre.length && pre.length < rev.length - 1 then
    String.mk ('.' :: pre.reverse)
  else ""

/-- ASCII `str.lower()` (the names compared against `IGNORE_LIST` are
ASCII). -/
def asciiLower (s : String) : String :=
  String.mk (s.toList.map (fun c =>
    if 'A' ≤ c && c ≤ 'Z' then Char.ofNat (c.toNat + 32) else c))

/-- Python `needle in haystack` on strings. -/
def strContainsSub (hay needle : List Char) : Bool :=
  (List.range (hay.length + 1)).any (fun i => needle.isPrefixOf (hay.drop i))

/-- `feedback.IGNORE_LIST`. -/
def IGNORE_LIST : List String :=
  ["requirements.txt", "readme.md", "pyproject.toml", "build.gradle"]

/-- `feedback.INTERESTING_TYPES`. -/
def INTERESTING_TYPES : List String :=
  [".md", ".txt", ".py", ".java", ".xml", ".toml", ".yml", ".yaml", ".csv"]

/-- `feedback.is_uninteresting(p, project)`: the ignore rule set, clause for
clause in source order. -/
def is_uninteresting (p : SubPath) : Bool :=
  if !p.isFile then true
  else if !(INTERESTING_TYPES.contains (pySuffix p.fname)) then true
  else if p.pname.toList.head? == some '.' then true
  else if p.pname.toList.head? == some '_' then true
  else if strContainsSub p.pname.toList ['_', '_'] then true
  else if IGNORE_LIST.contains (asciiLower p.fname) then true
  else false

/-- File contents as a byte sequence. -/
abbrev ByteSeq : Type := List Nat

/-- Modelled from the spec: `determine_submission_file_state` is imported
from `fastoblig.feedback` in `assessment.py` line 10 and called at line 192,
but its definition is absent from `src/`; this is its per-path
classification, following spec section 4.3 step 3, on top of the source's
`is_uninteresting`.  `baseline` maps a relative path text to the byte
content of that path in the baseline/template directory (`none` when the
baseline has no such path); `content` is the byte content of the path in
the checkout. -/
def determine_file_state (baseline : String → Option ByteSeq) (p : SubPath)
    (content : ByteSeq) : SubmissionFileState :=
  if is_uninteresting p then SubmissionFileState.IGNORED
  else
    match baseline p.pname with
    | some b => if b = content then SubmissionFileState.UNCHANGED
                else SubmissionFileState.CHANGED
    | none => SubmissionFileState.NEW

/-- C9: a path matching the ignore rules classifies `IGNORED` regardless of
content; otherwise a path present in the baseline directory with
byte-identical content classifies `UNCHANGED`, present with any differing
byte classifies `CHANGED`, and absent from the baseline classifies `NEW`. -/
theorem classify_file_claim (baseline : String → Option ByteSeq) (p : SubPath)
    (content : ByteSeq) :
    (is_uninteresting p = true →
      determine_file_state baseline p content = SubmissionFileState.IGNORED)
    ∧ (is_uninteresting p = false → baseline p.pname = some content →
      determine_file_state baseline p content = SubmissionFileState.UNCHANGED)
    ∧ (is_uninteresting p = false → ∀ b, baseline p.pname = some b → b ≠ content →
      determine_file_state baseline p content = SubmissionFileState.CHANGED)
    ∧ (is_uninteresting p = false → baseline p.pname = none →
      determine_file_state baseline p content = SubmissionFileState.NEW) := by
  refine ⟨?_, ?_, ?_, ?_⟩
  · intro h
    simp [determine_file_state, h]
  · intro h hb
    simp [determine_file_state, h, hb]
  · intro h b hb hne
    simp [determine_file_state, h, hb, hne]
  · intro h hb
    simp [determine_file_state, h, hb]

/-- A two-file baseline directory used by the C9 witness. -/
def demoBaseline : String → Option ByteSeq :=
  fun s => if s = "requirements.txt" then some [1, 2]
    else if s = "main.py" then some [1, 2]
    else none

/-- C9 witness: `requirements.txt` is `IGNORED` even though its content is
byte-identical to the baseline; `main.py` is `UNCHANGED` with identical
bytes, `CHANGED` with one differing byte; `fresh.py` is `NEW`. -/
theorem classify_file_claim_witness :
    determine_file_state demoBaseline ⟨["requirements.txt"], true⟩ [1, 2]
        = SubmissionFileState.IGNORED
    ∧ determine_file_state demoBaseline ⟨["main.py"], true⟩ [1, 2]
        = SubmissionFileState.UNCHANGED
    ∧ determine_file_state demoBaseline ⟨["main.py"], true⟩ [1, 3]
        = SubmissionFileState.CHANGED
    ∧ determine_file_state demoBaseline ⟨["fresh.py"], true⟩ [9]
        = SubmissionFileState.NEW :=
  ⟨(classify_file_claim demoBaseline ⟨["requirements.txt"], true⟩ [1, 2]).1 (by decide),
   (classify_file_claim demoBaseline ⟨["main.py"], true⟩ [1, 2]).2.1 (by decide) (by decide),
   (classify_file_claim demoBaseline ⟨["main.py"], true⟩ [1, 3]).2.2.1 (by decide)
     [1, 2] (by decide) (by decide),
   (classify_file_claim demoBaseline ⟨["fresh.py"], true⟩ [9]).2.2.2 (by decide) (by decide)⟩

/-- The standard base64 alphabet as byte values: index 0-63 to the ASCII
code of the corresponding character (`A-Z a-z 0-9 + /`). -/
def b64chr (n : Nat) : Nat :=
  if n < 26 then 65 + n
  else if n < 52 then 97 + (n - 26)
  else if n < 62 then 48 + (n - 52)
  else if n = 62 then 43
  else 47

/-- Inverse alphabet lookup (ASCII code of a base64 character to its
6-bit value). -/
def b64inv (c : Nat) : Nat :=
  if 65 ≤ c && c ≤ 90 then c - 65
  else if 97 ≤ c && c ≤ 122 then c - 71
  else if 48 ≤ c && c ≤ 57 then c + 4
  else if c = 43 then 62
  else if c = 47 then 63
  else 0

/-- The ASCII code of the base64 padding character. -/
def b64pad : Nat := 61

/-- `base64.b64encode` on a byte sequence: 3 input bytes to 4 alphabet
characters, with `=` padding for a 1- or 2-byte tail. -/
def b64encode : ByteSeq → ByteSeq
  | [] => []
  | [b1] => [b64chr (b1 / 4), b64chr (b1 % 4 * 16), b64pad, b64pad]
  | [b1, b2] => [b64chr (b1 / 4), b64chr (b1 % 4 * 16 + b2 / 16), b64chr (b2 % 16 * 4), b64pad]
  | b1 :: b2 :: b3 :: rest =>
      b64chr (b1 / 4) :: b64chr (b1 % 4 * 16 + b2 / 16)
        :: b64chr (b2 % 16 * 4 + b3 / 64) :: b64chr (b3 % 64) :: b64encode rest

/-- `base64.b64decode` on well-formed input: 4 characters to 3 bytes, with
the final chunk shortened according to its `=` padding. -/
def b64decode : ByteSeq → ByteSeq
  | c1 :: c2 :: c3 :: c4 :: rest =>
      if c3 = b64pad then [b64inv c1 * 4 + b64inv c2 / 16]
      else if c4 = b64pad then
        [b64inv c1 * 4 + b64inv c2 / 16, b64inv c2 % 16 * 16 + b64inv c3 / 4]
      else
        (b64inv c1 * 4 + b64inv c2 / 16) :: (b64inv c2 % 16 * 16 + b64inv c3 / 4)
          :: (b64inv c3 % 4 * 64 + b64inv c4) :: b64decode rest
  | _ => []

/-- The `tokens` table: one `(service, value)` row per service, in insertion
order; `service` is the primary key.  Token texts are modelled as byte
sequences (`str.encode` / `bytes.decode` are the identity here). -/
abbrev TokenTable : Type := List (String × ByteSeq)

/-- `SELECT value FROM tokens WHERE service = ?`: the (unique) row whose
primary key matches. -/
def lookupTok : TokenTable → String → Option ByteSeq
  | [], _ => none
  | (s2, v) :: rest, service => if s2 = service then some v else lookupTok rest service

/-- `UPDATE tokens SET value = ? WHERE service = ?`. -/
def replaceTok (tbl : TokenTable) (service : String) (v : ByteSeq) : TokenTable :=
  tbl.map (fun p => if p.1 = service then (p.1, v) else p)

/-- `Storage.get_token(token)`: fetch the row and base64-decode its value;
`if result and result[0]` makes both a missing row and an empty stored
text read back as `None`. -/
def get_token (tbl : TokenTable) (token : String) : Option ByteSeq :=
  match lookupTok tbl token with
  | some v => if v ≠ [] then some (b64decode v) else none
  | none => none

/-- `Storage.set_token(token, value)`: UPDATE when `get_token` is truthy,
INSERT otherwise; an INSERT that hits an existing row violates the primary
key and raises (`Except.error`). -/
def set_token (tbl : TokenTable) (token : String) (value : ByteSeq) :
    Except String TokenTable :=
  if (get_token tbl token).isSome then
    Except.ok (replaceTok tbl token (b64encode value))
  else
    match lookupTok tbl token with
    | some _ => Except.error "UNIQUE constraint failed: tokens.service"
    | none => Except.ok (tbl ++ [(token, b64encode value)])

/-- Helper: alphabet and padding never collide. -/
theorem b64chr_ne_pad : ∀ n, n < 64 → b64chr n ≠ b64pad := by decide

/-- Helper: the inverse alphabet lookup inverts the alphabet. -/
theorem b64inv_chr : ∀ n, n < 64 → b64inv (b64chr n) = n := by decide

/-- Helper: `b64decode` inverts `b64encode` on byte sequences. -/
theorem b64_roundtrip : ∀ bs : ByteSeq, (∀ b ∈ bs, b < 256) →
    b64decode (b64encode bs) = bs
  | [], _ => rfl
  | [b1], h => by
      have hb1 : b1 < 256 := h b1 (by simp)
      have h1 := b64inv_chr (b1 / 4) (by omega)
      have h2 := b64inv_chr (b1 % 4 * 16) (by omega)
      simp [b64encode, b64decode, h1, h2]
      omega
  | [b1, b2], h => by
      have hb1 : b1 < 256 := h b1 (by simp)
      have hb2 : b2 < 256 := h b2 (by simp)
      have hne3 := b64chr_ne_pad (b2 % 16 * 4) (by omega)
      have h1 := b64inv_chr (b1 / 4) (by omega)
      have h2 := b64inv_chr (b1 % 4 * 16 + b2 / 16) (by omega)
      have h3 := b64inv_chr (b2 % 16 * 4) (by omega)
      simp [b64encode, b64decode, hne3, h1, h2, h3]
      omega
  | b1 :: b2 :: b3 :: rest, h => by
      have hb1 : b1 < 256 := h b1 (by simp)
      have hb2 : b2 < 256 := h b2 (by simp)
      have hb3 : b3 < 256 := h b3 (by simp)
      have ih := b64_roundtrip rest (fun b hb => h b (by simp [hb]))
      have hne3 := b64chr_ne_pad (b2 % 16 * 4 + b3 / 64) (by omega)
      have hne4 := b64chr_ne_pad (b3 % 64) (by omega)
      have h1 := b64inv_chr (b1 / 4) (by omega)
      have h2 := b64inv_chr (b1 % 4 * 16 + b2 / 16) (by omega)
      have h3 := b64inv_chr (b2 % 16 * 4 + b3 / 64) (by omega)
      have h4 := b64inv_chr (b3 % 64) (by omega)
      simp [b64encode, b64decode, hne3, hne4, h1, h2, h3, h4, ih]
      omega

/-- Helper: encoding a nonempty byte sequence yields a nonempty text. -/
theorem b64encode_ne_nil (v : ByteSeq) (hne : v ≠ []) : b64encode v ≠ [] := by
  cases v with
  | nil => exact absurd rfl hne
  | cons b1 t =>
      cases t with
      | nil => simp [b64encode]
      | cons b2 t2 =>
          cases t2 with
          | nil => simp [b64encode]
          | cons b3 t3 => simp [b64encode]

/-- Helper: an UPDATE on the matching row is what a later SELECT sees. -/
theorem lookupTok_replace (tbl : TokenTable) (service : String) (x : ByteSeq) :
    lookupTok (replaceTok tbl service x) service
      = (lookupTok tbl service).map (fun _ => x) := by
  induction tbl with
  | nil => rfl
  | cons hd tl ih =>
      cases hd with
      | mk s0 v0 =>
          simp only [replaceTok, List.map_cons] at ih ⊢
          by_cases hh : s0 = service
          · rw [if_pos hh]
            simp only [lookupTok]
            rw [if_pos hh, if_pos hh]
            simp
          · rw [if_neg hh]
            simp only [lookupTok]
            rw [if_neg hh, if_neg hh]
            exact ih

/-- Helper: an UPDATE keyed on one service leaves other services' rows
unread and unchanged. -/
theorem lookupTok_replace_ne (tbl : TokenTable) (service s2 : String) (x : ByteSeq)
    (hne : s2 ≠ service) :
    lookupTok (replaceTok tbl service x) s2 = lookupTok tbl s2 := by
  induction tbl with
  | nil => rfl
  | cons hd tl ih =>
      cases hd with
      | mk s0 v0 =>
          simp only [replaceTok, List.map_cons] at ih ⊢
          by_cases hh : s0 = service
          · have hns : ¬s0 = s2 := by
              rw [hh]
              exact fun hc => hne hc.symm
            rw [if_pos hh]
            simp only [lookupTok]
            rw [if_neg hns, if_neg hns]
            exact ih
          · rw [if_neg hh]
            simp only [lookupTok]
            by_cases hh2 : s0 = s2
            · rw [if_pos hh2, if_pos hh2]
            · rw [if_neg hh2, if_neg hh2]
              exact ih

/-- Helper: an INSERT is visible to a later SELECT on the same key when no
earlier row matched. -/
theorem lookupTok_append (tbl : TokenTable) (service : String) (x : ByteSeq)
    (hnone : lookupTok tbl service = none) :
    lookupTok (tbl ++ [(service, x)]) service = some x := by
  induction tbl with
  | nil => simp [lookupTok]
  | cons hd tl ih =>
      cases hd with
      | mk s0 v0 =>
          simp only [lookupTok] at hnone
          simp only [List.cons_append, lookupTok]
          by_cases hh : s0 = service
          · rw [if_pos hh] at hnone
            exact Option.noConfusion hnone
          · rw [if_neg hh] at hnone
            rw [if_neg hh]
            exact ih hnone

/-- Helper: an INSERT keyed on one service leaves other services' rows
unchanged. -/
theorem lookupTok_append_ne (tbl : TokenTable) (service s2 : String) (x : ByteSeq)
    (hne : s2 ≠ service) :
    lookupTok (tbl ++ [(service, x)]) s2 = lookupTok tbl s2 := by
  induction tbl with
  | nil =>
      simp only [List.nil_append, lookupTok]
      rw [if_neg (fun hc => hne hc.symm)]
  | cons hd tl ih =>
      cases hd with
      | mk s0 v0 =>
          simp only [List.cons_append, lookupTok]
          by_cases hh2 : s0 = s2
          · rw [if_pos hh2, if_pos hh2]
          · rw [if_neg hh2, if_neg hh2]
            exact ih

/-- C10 counterexample: storing the empty string does not round-trip.
`set_token` writes a row whose value text is empty, and `get_token`'s
truthiness guard (`if result and result[0]`) then reads it back as `None`
rather than the empty value. -/
theorem token_roundtrip_counterexample :
    set_token [] "github" [] = Except.ok [("github", [])]
    ∧ get_token [("github", [])] "github" = none
    ∧ (none : Option ByteSeq) ≠ some [] :=
  ⟨rfl, rfl, by simp⟩

/-- C10 (amended): for every *nonempty* byte-string value, a successful
`set_token` followed by `get_token` returns exactly that value (base64
inverted on read), rows of other services are untouched, an already-set
service is overwritten in place (no row added), and `get_token` of a
service with no row returns `None`. -/
theorem set_get_token_amended (tbl : TokenTable) (service : String) (value : ByteSeq)
    (hbytes : ∀ b ∈ value, b < 256) (hval : value ≠ []) :
    (∀ tbl2, set_token tbl service value = Except.ok tbl2 →
      get_token tbl2 service = some value
      ∧ (∀ s2, s2 ≠ service → lookupTok tbl2 s2 = lookupTok tbl s2)
      ∧ ((get_token tbl service).isSome = true → tbl2.length = tbl.length))
    ∧ (lookupTok tbl service = none → get_token tbl service = none) := by
  constructor
  · intro tbl2 hset
    by_cases hs : (get_token tbl service).isSome = true
    · simp only [set_token, hs, if_true] at hset
      injection hset with hset
      subst hset
      refine ⟨?_, ?_, ?_⟩
      · have hl : ∃ v, lookupTok tbl service = some v := by
          unfold get_token at hs
          cases hlk : lookupTok tbl service with
          | none =>
              rw [hlk] at hs
              simp at hs
          | some v => exact ⟨v, rfl⟩
        obtain ⟨v, hv⟩ := hl
        simp only [get_token]
        rw [lookupTok_replace, hv]
        simp [b64encode_ne_nil value hval, b64_roundtrip value hbytes]
      · intro s2 hs2
        exact lookupTok_replace_ne tbl service s2 _ hs2
      · intro _
        simp [replaceTok]
    · simp only [set_token, hs, if_false] at hset
      cases hlk : lookupTok tbl service with
      | some v =>
          rw [hlk] at hset
          exact Except.noConfusion hset
      | none =>
          rw [hlk] at hset
          injection hset with hset
          subst hset
          refine ⟨?_, ?_, ?_⟩
          · simp only [get_token]
            rw [lookupTok_append tbl service _ hlk]
            simp [b64encode_ne_nil value hval, b64_roundtrip value hbytes]
          · intro s2 hs2
            exact lookupTok_append_ne tbl service s2 _ hs2
          · intro hcontra
            exact absurd hcontra hs
  · intro hnone
    simp [get_token, hnone]

/-- C10 witness: setting the two-byte value `"hi"` for `openai` on an empty
store and reading it back returns exactly that value. -/
theorem set_get_token_amended_witness :
    get_token [("openai", b64encode [104, 105])] "openai" = some [104, 105] :=
  ((set_get_token_amended [] "openai" [104, 105] (by decide) (by decide)).1
    [("openai", b64encode [104, 105])] rfl).1

/-!
## The staged storage layer (`storage.py`) and its failure points
-/

/-- A raised Python exception, as the staged code's callers observe it:
`sqlite3.OperationalError` from a statement sqlite refuses to prepare,
`AttributeError` from a pydantic attribute read, `ValueError`, or
`SystemExit` from `sys.exit`. -/
inductive PyError where
  | operationalError (msg : String)
  | attributeError (msg : String)
  | valueError (msg : String)
  | systemExit (code : Nat)
deriving DecidableEq, Repr

/-- The columns of the `submissions` table as the staged DDL creates it
(storage.py lines 64-81).  There is no `submission_type` column. -/
def submissionsTableColumns : List String :=
  ["id", "exercise", "repo_url", "group_id", "group_name", "state", "grade",
   "deadline", "submitted_at", "graded_at", "comment_file", "testresult_file",
   "feedback_file", "content"]

/-- The columns referenced by the SELECT of `get_submissions` (storage.py
lines 534-552; the list also misses a comma before its last entry, so
`feedback_file content` reads the `feedback_file` column under the alias
`content`). -/
def getSubmissionsSelectColumns : List String :=
  ["id", "exercise", "repo_url", "submission_type", "group_id", "group_name",
   "state", "grade", "deadline", "submitted_at", "graded_at", "comment_file",
   "testresult_file", "feedback_file"]

/-- The columns assigned by the UPDATE of `update_submission` (storage.py
lines 734-750) and by the UPDATE of the MODIFIED branch of
`upsert_submissions` (lines 806-822). -/
def updateSubmissionsSetColumns : List String :=
  ["repo_url", "submission_type", "group_id", "group_name", "state", "grade",
   "deadline", "submitted_at", "graded_at", "comment_file", "testresult_file",
   "feedback_file"]

/-- The columns named by the INSERT of the NEW branch of `upsert_submissions`
(storage.py lines 843-859) and by `_insert_submission` (lines 696-712). -/
def insertSubmissionsColumns : List String :=
  ["id", "exercise", "repo_url", "submission_type", "group_id", "group_name",
   "state", "grade", "deadline", "submitted_at", "graded_at", "comment_file",
   "testresult_file", "feedback_file"]

/-- The columns of the `contributions` table as the staged DDL creates it
(storage.py lines 82-88). -/
def contributionsTableColumns : List String := ["student_id", "submission_id"]

/-- The columns named by the contribution INSERT in the member loop of
`upsert_submissions` (storage.py lines 894-895). -/
def insertContributionsColumns : List String :=
  ["id", "student_id", "submission_id"]

/-- The field names of the pydantic model `domain.Submission` (domain.py
lines 141-155); accessing any other attribute of an instance raises
`AttributeError`.  There is no `members` field. -/
def submissionModelFields : List String :=
  ["id", "exercise", "content", "state", "contributions", "submission_type",
   "submission_group_id", "submission_group_name", "submitted_at", "graded_at",
   "extended_to", "grade", "testresult_file", "comment_file", "feedback_file"]

/-- The `sqlite3.OperationalError` raised at prepare time by a SELECT or
UPDATE that reads or assigns the nonexistent `submission_type` column. -/
def noSuchColumnError : PyError :=
  PyError.operationalError "no such column: submission_type"

/-- The `sqlite3.OperationalError` raised at prepare time by an INSERT
naming `submission_type` in its column list. -/
def noInsertColumnError : PyError :=
  PyError.operationalError "table submissions has no column named submission_type"

/-- The `AttributeError` raised by reading `s.members` on a
`domain.Submission` (the model field is `contributions`). -/
def noMembersError : PyError :=
  PyError.attributeError "Submission object has no attribute members"

/-- One row of the `submissions` table, column for column as the staged DDL
declares it (storage.py lines 64-81): nullable `text`/`blob` columns as
`Option String`, nullable `integer`/`real` columns as `Option Int`. -/
structure Row where
  id : Int
  exercise : Int
  repo_url : Option String
  group_id : Option Int
  group_name : Option String
  state : Option String
  grade : Option Int
  deadline : Option String
  submitted_at : Option String
  graded_at : Option String
  comment_file : Option String
  testresult_file : Option String
  feedback_file : Option String
  content : Option String
deriving DecidableEq, Repr

/-- The database file's state: the tables the reconciliation engine touches.
A `contributions` row is a `(student_id, submission_id)` pair; `exercises`
keeps the stored exercise ids (all `upsert_submissions` uses
`get_exercise` for is its truthiness). -/
structure DBState where
  submissions : List Row
  contributions : List (Int × Int)
  exercises : List Int
deriving DecidableEq, Repr

/-- `get_exercise(exercise_id)` is truthy: the `exercises` table holds a row
with this id (that SELECT names only declared columns and succeeds). -/
def hasExercise (db : DBState) (exercise_id : Int) : Bool :=
  db.exercises.contains exercise_id

/-- `Storage.get_submissions` (storage.py lines 525-577).  When the exercise
is not stored the function returns `[]` before touching the `submissions`
table; when it is stored, the SELECT at line 534 names the nonexistent
`submission_type` column and sqlite raises `OperationalError` while
preparing it, before any row is read. -/
def get_submissions (db : DBState) (exercise_id : Int) :
    Except PyError (List Submission) :=
  if hasExercise db exercise_id then Except.error noSuchColumnError
  else Except.ok []

/-- `old_indexed = { s.id: s for s in old }` (storage.py line 790): a dict
built by iteration, the entry written last wins for a duplicated id. -/
def old_indexed (old : List Submission) : Int → Option Submission :=
  fun k => lookupLast (old.map (fun s => (s.id, s))) k

/-- `single_unsubmitted = { s.members[0]: s for s in old if len(s.members)
== 1 and s.state == SubmissionState.UNSUBMITTED }` (storage.py lines
791-792).  The comprehension reads `s.members` on every element of `old`,
and `domain.Submission` has no such attribute: for a nonempty `old` it
raises `AttributeError` at the first element; only for an empty `old` does
it build the (empty) dict. -/
def single_unsubmitted (old : List Submission) :
    Except PyError (Int → Option Submission) :=
  match old with
  | [] => Except.ok (fun _ => none)
  | _ :: _ => Except.error noMembersError

/-- One iteration of the reconciliation loop of `upsert_submissions`
(storage.py lines 796-900) on incoming submission `new`.  Every branch
raises before the iteration completes:

* id known and field-for-field identical (line 799): the branch runs no
  SQL, but control reaches the member loop at line 876, whose
  `zip(new.members, new.contributions)` reads the nonexistent `members`
  attribute and raises `AttributeError`;
* id known and caught by the regression guard (line 802): likewise no SQL
  in the branch, then `new.members` raises at line 876;
* id known, otherwise (line 805): the UPDATE assigns the nonexistent
  `submission_type` column and sqlite raises `OperationalError` while
  preparing it;
* id unknown (line 840): the INSERT names `submission_type` in its column
  list and raises `OperationalError` while being prepared.

So no SQL statement of the loop body ever executes against the store. -/
def upsertIter (force : Bool) (oldIdx : Int → Option Submission)
    (new : Submission) : Except PyError Unit :=
  match oldIdx new.id with
  | some old_submission =>
      if new = old_submission then Except.error noMembersError
      else if rejectCond force old_submission new then Except.error noMembersError
      else Except.error noSuchColumnError
  | none => Except.error noInsertColumnError

/-- The loop of `upsert_submissions` over the incoming batch; the first
raised exception propagates to the caller. -/
def upsertLoop (force : Bool) (oldIdx : Int → Option Submission) :
    List Submission → Except PyError Unit
  | [] => Except.ok ()
  | new :: rest =>
      match upsertIter force oldIdx new with
      | Except.ok _ => upsertLoop force oldIdx rest
      | Except.error e => Except.error e

/-- `Storage.upsert_submissions(exercise_id, submissions, force)`
(storage.py lines 770-903) as explicit state passing on the database: a
non-raising run returns the new store together with the `states` and
`submissions` result maps (Python dicts, modelled as insertion-ordered
association lists).  Both maps are populated only inside the loop body, and
no loop iteration completes (see `upsertIter`), so a run returns only when
the loop body never ran — the batch was empty — and then the maps are still
empty and the store untouched. -/
def upsert_submissions (exercise_id : Int) (submissions : List Submission)
    (force : Bool) (db : DBState) :
    Except PyError (DBState × List (Int × UpdateResult) × List (Int × Submission)) :=
  match get_submissions db exercise_id with
  | Except.error e => Except.error e
  | Except.ok old =>
      match single_unsubmitted old with
      | Except.error e => Except.error e
      | Except.ok _ =>
          match upsertLoop force (old_indexed old) submissions with
          | Except.error e => Except.error e
          | Except.ok _ => Except.ok (db, [], [])

/-- The sqlite connection: `committed` is what the database file holds (what
another connection observes, and what this one keeps after an abandoned
run), `pending` the uncommitted effects of `cursor.execute` calls;
`connection.commit()` publishes `pending`. -/
structure Conn where
  committed : DBState
  pending : DBState
deriving DecidableEq, Repr

/-- `upsert_submissions` at connection level.  A raising run propagates its
exception with nothing committed (the single `connection.commit()` at
storage.py line 901 is only reached by a completed run, and the raising
statements were refused at prepare time, so not even `pending` changed); a
completing run commits exactly once. -/
def upsert_submissions_conn (exercise_id : Int) (submissions : List Submission)
    (force : Bool) (c : Conn) : Except PyError Conn :=
  match upsert_submissions exercise_id submissions force c.pending with
  | Except.ok (db2, _, _) => Except.ok { committed := db2, pending := db2 }
  | Except.error e => Except.error e

/-- `Storage.update_submission` (storage.py lines 732-767): its UPDATE
assigns the nonexistent `submission_type` column (line 737), so sqlite
raises `OperationalError` while preparing the statement — before any write
and before the commit at line 766 — for every submission and every store. -/
def update_submission (_submission : Submission) (_db : DBState) :
    Except PyError DBState :=
  Except.error noSuchColumnError

/-- `Assessor.reset` (assessment.py lines 510-512): set the in-memory state
field to the target and call `storage.update_submission`.  The result is
the mutated in-memory submission together with the outcome of the
persistence call. -/
def Assessor.reset (submission : Submission) (target_state : SubmissionState)
    (db : DBState) : Submission × Except PyError DBState :=
  let sub2 := { submission with state := target_state }
  (sub2, update_submission sub2 db)

/-- One phase action of `Assessor` (`_do_checkout`, `_do_testing`,
`_do_evaluation`, `_do_publish`, `_do_finish`; assessment.py lines
108-483), at the level of the persisted submission state: `Except.ok s2` is
a round that returns normally while the store persists state `s2`,
`Except.error` a raised exception.  Every branch that would advance the
state reaches `self.storage.update_submission(submission)`, which raises
`OperationalError` (see `update_submission`); the abort branches return
without writing:

* DOWNLOADING (`_do_checkout`): an unsupported exercise type calls
  `sys.exit(1)` (line 175); an already existing working directory (line
  131) or a `GitCommandError` from the clone (line 170) returns with no
  write; a successful clone sets `CHECKED_OUT` and calls
  `update_submission` (line 167), which raises — and the surrounding `try`
  catches only `GitCommandError`, so the exception propagates;
* TESTING (`_do_testing`): every test backend path writes the testresult
  file, sets `TESTED` and calls `update_submission` (line 262) — raises;
* EVALUATION (`_do_evaluation`): AI evaluation with no stored OpenAI token
  returns with no write (line 308); every other path sets
  `FEEDBACK_GENERATED` and calls `update_submission` (line 349) — raises;
* PUBLISHING (`_do_publish`): empty feedback returns (line 416); a GitHub
  upload with no stored GitHub token returns (line 382); posting the
  feedback (to GitHub or the LMS), or concluding without posting when
  confirmed, sets `FEEDBACK_PUBLISHED` and calls `update_submission`
  (line 413) — raises; declining both confirmations returns;
* FINISHING (`_do_finish`): every path sets the final grade and state and
  calls `update_submission` (line 482) — raises. -/
def runPhase (phase : AssessmentPhase) (env : PhaseEnv) (s : SubmissionState) :
    Except PyError SubmissionState :=
  match phase with
  | AssessmentPhase.DOWNLOADING =>
      if !env.repoSupported then Except.error (PyError.systemExit 1)
      else if env.dirAlreadyExists then Except.ok s
      else if env.cloneOk then Except.error noSuchColumnError
      else Except.ok s
  | AssessmentPhase.TESTING => Except.error noSuchColumnError
  | AssessmentPhase.EVALUATION =>
      if env.useAI && !env.openaiTokenPresent then Except.ok s
      else Except.error noSuchColumnError
  | AssessmentPhase.PUBLISHING =>
      if !env.feedbackNonEmpty then Except.ok s
      else if env.contentIsGithub then
        if env.confirmUpload then
          if env.githubTokenPresent then Except.error noSuchColumnError
          else Except.ok s
        else if env.concludeAnyway then Except.error noSuchColumnError
        else Except.ok s
      else
        if env.confirmUpload then Except.error noSuchColumnError
        else if env.concludeAnyway then Except.error noSuchColumnError
        else Except.ok s
  | AssessmentPhase.FINISHING => Except.error noSuchColumnError

/-- `Assessor.assess` (assessment.py lines 486-505): compute the next phase
(`ValueError` for a state with no mapping), ask the proceed confirmation,
and run the phase when it is granted. -/
def assess (env : PhaseEnv) (s : SubmissionState) :
    Except PyError SubmissionState :=
  match AssessmentPhase.next s with
  | Except.error msg => Except.error (PyError.valueError msg)
  | Except.ok phase => if env.proceed then runPhase phase env s else Except.ok s

/-- The in-memory form of a persisted `FAILED` submission of exercise 10
(student 5 its contributor). -/
def subOldT : Submission :=
  { id := 1, exercise := 10, content := none, state := SubmissionState.FAILED,
    contributions := [5], submission_type := none, submission_group_id := none,
    submission_group_name := none }

/-- An incoming `SUBMITTED` snapshot with the same id: the resubmission
scenario of the claim (persisted `FAILED`, incoming `SUBMITTED`). -/
def subNewT : Submission :=
  { id := 1, exercise := 10, content := none, state := SubmissionState.SUBMITTED,
    contributions := [5], submission_type := none, submission_group_id := none,
    submission_group_name := none }

/-- `subOldT` as a persisted row. -/
def rowT2 : Row :=
  { id := 1, exercise := 10, repo_url := none, group_id := none,
    group_name := none, state := some "FAILED", grade := none, deadline := none,
    submitted_at := none, graded_at := none, comment_file := none,
    testresult_file := none, feedback_file := none, content := none }

/-- A store holding exercise 10, the persisted row `rowT2` and its
contribution row. -/
def dbT2 : DBState :=
  { submissions := [rowT2], contributions := [(5, 1)], exercises := [10] }

/-- The same rows while exercise 10 itself is not in the `exercises` table. -/
def dbT3 : DBState :=
  { submissions := [rowT2], contributions := [(5, 1)], exercises := [] }

/-- A minimal incoming submission of exercise 10 (the double-merge scenario). -/
def subC2 : Submission :=
  { id := 1, exercise := 10, content := none, state := SubmissionState.SUBMITTED,
    contributions := [], submission_type := none, submission_group_id := none,
    submission_group_name := none }

/-- The empty store. -/
def dbEmpty2 : DBState :=
  { submissions := [], contributions := [], exercises := [] }

/-- A store holding only exercise 10. -/
def dbExercise10 : DBState :=
  { submissions := [], contributions := [], exercises := [10] }

/-- The single-member `UNSUBMITTED` placeholder P of the cleanup scenario
(in-memory form; student 5 its sole contributor). -/
def subP : Submission :=
  { id := 2, exercise := 10, content := none,
    state := SubmissionState.UNSUBMITTED, contributions := [5],
    submission_type := none, submission_group_id := none,
    submission_group_name := none }

/-- The incoming submission Q of the cleanup scenario: a fresh id naming
student 5 among its contributors. -/
def subQ : Submission :=
  { id := 3, exercise := 10, content := none, state := SubmissionState.SUBMITTED,
    contributions := [5], submission_type := none, submission_group_id := none,
    submission_group_name := none }

/-- P as a persisted row. -/
def rowP : Row :=
  { id := 2, exercise := 10, repo_url := none, group_id := none,
    group_name := none, state := some "UNSUBMITTED", grade := none,
    deadline := none, submitted_at := none, graded_at := none,
    comment_file := none, testresult_file := none, feedback_file := none,
    content := none }

/-- A store holding exercise 10, the placeholder row `rowP` and its
contribution row for student 5. -/
def dbP2 : DBState :=
  { submissions := [rowP], contributions := [(5, 2)], exercises := [10] }

/-- A connection whose file and pending state both hold `dbExercise10`. -/
def cT : Conn := { committed := dbExercise10, pending := dbExercise10 }

/-- A connection over the empty store. -/
def cEmpty : Conn := { committed := dbEmpty2, pending := dbEmpty2 }

/-- A persisted row for submission 7 of exercise 10. -/
def row7x : Row :=
  { id := 7, exercise := 10, repo_url := none, group_id := none,
    group_name := none, state := some "SUBMITTED", grade := none,
    deadline := none, submitted_at := none, graded_at := none,
    comment_file := none, testresult_file := none, feedback_file := none,
    content := none }

/-- A store holding the persisted row `row7x` while the `exercises` table is
empty (sqlite leaves the declared foreign key unenforced unless
`PRAGMA foreign_keys` is turned on, which the staged code never does, so
this is a valid state of the database file). -/
def db7x : DBState :=
  { submissions := [row7x], contributions := [], exercises := [] }

/-- The same store with exercise 10 also present. -/
def db7y : DBState :=
  { submissions := [row7x], contributions := [], exercises := [10] }

/-- Helper: every iteration of the reconciliation loop raises. -/
theorem upsertIter_errors (force : Bool) (oldIdx : Int → Option Submission)
    (new : Submission) : ∃ e, upsertIter force oldIdx new = Except.error e := by
  cases hidx : oldIdx new.id with
  | none => exact ⟨noInsertColumnError, by simp [upsertIter, hidx]⟩
  | some old_submission =>
      by_cases h1 : new = old_submission
      · subst h1
        exact ⟨noMembersError, by simp [upsertIter, hidx]⟩
      · by_cases h2 : rejectCond force old_submission new = true
        · exact ⟨noMembersError, by simp [upsertIter, hidx, h1, h2]⟩
        · exact ⟨noSuchColumnError, by simp [upsertIter, hidx, h1, h2]⟩

/-- Helper: the reconciliation loop completes only on an empty batch. -/
theorem upsertLoop_ok (force : Bool) (oldIdx : Int → Option Submission)
    (batch : List Submission)
    (h : upsertLoop force oldIdx batch = Except.ok ()) : batch = [] := by
  cases batch with
  | nil => rfl
  | cons new rest =>
      obtain ⟨e, he⟩ := upsertIter_errors force oldIdx new
      simp [upsertLoop, he] at h

/-- Helper: every non-raising run of `upsert_submissions` returns the store
unchanged with both result maps empty, and only an empty batch completes. -/
theorem upsert_ok_characterization (exercise_id : Int)
    (batch : List Submission) (force : Bool) (db : DBState)
    (out : DBState × List (Int × UpdateResult) × List (Int × Submission))
    (h : upsert_submissions exercise_id batch force db = Except.ok out) :
    out = (db, [], []) ∧ batch = [] ∧ hasExercise db exercise_id = false := by
  by_cases hex : hasExercise db exercise_id = true
  · simp [upsert_submissions, get_submissions, hex] at h
  · cases batch with
    | nil =>
        simp [upsert_submissions, get_submissions, hex, single_unsubmitted,
          upsertLoop] at h
        exact ⟨h.symm, rfl, by simp [hex]⟩
    | cons new rest =>
        obtain ⟨e, he⟩ := upsertIter_errors force (old_indexed []) new
        simp [upsert_submissions, get_submissions, hex, single_unsubmitted,
          upsertLoop, he] at h

/-- Helper: a phase round that returns normally leaves the persisted state
exactly as it was. -/
theorem runPhase_fix (phase : AssessmentPhase) (env : PhaseEnv)
    (s s2 : SubmissionState) (h : runPhase phase env s = Except.ok s2) :
    s2 = s := by
  cases phase with
  | DOWNLOADING =>
      simp only [runPhase] at h
      split at h
      · exact Except.noConfusion h
      · split at h
        · injection h with h2
          exact h2.symm
        · split at h
          · exact Except.noConfusion h
          · injection h with h2
            exact h2.symm
  | TESTING => exact Except.noConfusion h
  | EVALUATION =>
      simp only [runPhase] at h
      split at h
      · injection h with h2
        exact h2.symm
      · exact Except.noConfusion h
  | PUBLISHING =>
      simp only [runPhase] at h
      split at h
      · injection h with h2
        exact h2.symm
      · split at h
        · split at h
          · split at h
            · exact Except.noConfusion h
            · injection h with h2
              exact h2.symm
          · split at h
            · exact Except.noConfusion h
            · injection h with h2
              exact h2.symm
        · split at h
          · exact Except.noConfusion h
          · split at h
            · exact Except.noConfusion h
            · injection h with h2
              exact h2.symm
  | FINISHING => exact Except.noConfusion h

/-- Helper: an `assess` round that returns normally leaves the persisted
state exactly as it was (granted or declined alike). -/
theorem assess_fix (env : PhaseEnv) (s s2 : SubmissionState)
    (h : assess env s = Except.ok s2) : s2 = s := by
  simp only [assess] at h
  cases hnext : AssessmentPhase.next s with
  | error m =>
      rw [hnext] at h
      simp at h
  | ok phase =>
      rw [hnext] at h
      simp at h
      by_cases hp : env.proceed = true
      · simp only [hp, if_true] at h
        exact runPhase_fix phase env s s2 h
      · simp only [hp, if_false] at h
        injection h with h2
        exact h2.symm

/-- C1: the REJECTED/MODIFIED classification of the merge is unreachable in
the staged code.  With the exercise stored, `upsert_submissions` raises
`OperationalError` already inside `get_submissions`, before any pair of
rows is compared; with the exercise not stored, the persisted row is
invisible (`get_submissions` returns `[]`) and the incoming snapshot hits
the INSERT, which names the nonexistent `submission_type` column and
raises; and even with a populated index, the claim's resubmission case
(persisted `FAILED`, incoming `SUBMITTED` — `rejectCond` is indeed false,
so the MODIFIED branch is taken) raises at the UPDATE.  The staged column
lists show the cause: `submission_type` is read, assigned and inserted but
never declared. -/
theorem upsert_regression_unreachable :
    ("submission_type" ∉ submissionsTableColumns
      ∧ "submission_type" ∈ getSubmissionsSelectColumns
      ∧ "submission_type" ∈ updateSubmissionsSetColumns
      ∧ "submission_type" ∈ insertSubmissionsColumns)
    ∧ upsert_submissions 10 [subNewT] false dbT2 = Except.error noSuchColumnError
    ∧ upsert_submissions 10 [subNewT] false dbT3 = Except.error noInsertColumnError
    ∧ rejectCond false subOldT subNewT = false
    ∧ upsertIter false (old_indexed [subOldT]) subNewT
        = Except.error noSuchColumnError :=
  ⟨⟨by decide, by decide, by decide, by decide⟩, rfl, rfl, rfl, rfl⟩

/-- C2: the idempotence scenario is unreachable: already the FIRST merge of
the batch raises, so there is no completed first pass whose rows a second
pass could read back.  With the exercise stored (the setup of
`test_storage.py`), `get_submissions` raises at its SELECT; without it, the
INSERT for the fresh id raises.  And a pair meeting the UNCHANGED guard
(identical old and new, storage.py line 799) also raises, at `new.members`
in the member loop, before any result map is returned. -/
theorem upsert_idempotence_unreachable :
    upsert_submissions 10 [subC2] false dbExercise10
        = Except.error noSuchColumnError
    ∧ upsert_submissions 10 [subC2] false dbEmpty2
        = Except.error noInsertColumnError
    ∧ upsertIter false (old_indexed [subC2]) subC2 = Except.error noMembersError
    ∧ ("members" ∉ submissionModelFields
        ∧ "submission_type" ∈ insertSubmissionsColumns
        ∧ "submission_type" ∉ submissionsTableColumns) :=
  ⟨rfl, rfl, rfl, by decide, by decide, by decide⟩

/-- C3: the placeholder cleanup is unreachable.  Merging Q into a store
holding placeholder P raises `OperationalError` already in
`get_submissions`; the `single_unsubmitted` snapshot itself raises
`AttributeError` on every nonempty list of persisted submissions, because
its comprehension reads the nonexistent `members` attribute; and the
contribution INSERT of the member loop (storage.py line 894) names an `id`
column the `contributions` DDL does not declare.  The store — P's row
included — is never touched. -/
theorem upsert_placeholder_unreachable :
    upsert_submissions 10 [subQ] false dbP2 = Except.error noSuchColumnError
    ∧ single_unsubmitted [subP] = Except.error noMembersError
    ∧ ("members" ∉ submissionModelFields
        ∧ "id" ∈ insertContributionsColumns
        ∧ "id" ∉ contributionsTableColumns) :=
  ⟨rfl, rfl, by decide, by decide, by decide⟩

/-- C4: the atomicity scenario is degenerate in the staged code.  A merge of
a nonempty batch raises before `connection.commit()` (storage.py line 901)
with nothing committed — nothing was even executed, every DML statement of
the loop having been refused at prepare time — and the only runs that reach
the single commit are empty-batch runs, which commit the store unchanged:
every completing run returns a connection whose committed and pending state
both equal the incoming pending state, and its batch was empty.  The
claimed case of a full batch committed together never occurs. -/
theorem upsert_commit_unreachable :
    upsert_submissions_conn 10 [subC2] false cT = Except.error noSuchColumnError
    ∧ upsert_submissions_conn 10 [] false cEmpty
        = Except.ok { committed := dbEmpty2, pending := dbEmpty2 }
    ∧ (∀ exercise_id batch force c c2,
        upsert_submissions_conn exercise_id batch force c = Except.ok c2 →
          c2.committed = c.pending ∧ c2.pending = c.pending ∧ batch = []) := by
  refine ⟨rfl, rfl, ?_⟩
  intro exercise_id batch force c c2 h
  unfold upsert_submissions_conn at h
  cases hup : upsert_submissions exercise_id batch force c.pending with
  | error e =>
      rw [hup] at h
      simp at h
  | ok out =>
      obtain ⟨hout, hbatch, _⟩ :=
        upsert_ok_characterization exercise_id batch force c.pending out hup
      rw [hup] at h
      subst hout
      simp at h
      subst h
      exact ⟨rfl, rfl, hbatch⟩

/-- C5 counterexample: a completing merge — an empty batch over a store
persisting submission 7 for an exercise that is not locally stored — leaves
the row untouched but returns an EMPTY result map: id 7 is not reported
`UNCHANGED` (`upsert_submissions` has no final loop over preexisting ids;
only `load_submissions`, storage.py lines 686-689, reports untouched ids).
With exercise 10 itself stored, the merge does not complete at all. -/
theorem upsert_unreported_counterexample :
    upsert_submissions 10 [] false db7x = Except.ok (db7x, [], [])
    ∧ db7x.submissions = [row7x]
    ∧ lookupLast ([] : List (Int × UpdateResult)) 7 = none
    ∧ (none : Option UpdateResult) ≠ some UpdateResult.UNCHANGED
    ∧ upsert_submissions 10 [] false db7y = Except.error noSuchColumnError :=
  ⟨rfl, rfl, rfl, by simp, rfl⟩

/-- C5 (amended): a merge returns at all only for an empty incoming batch
over a store whose `exercises` table lacks the exercise; then every
previously persisted row is left untouched (the store comes back unchanged)
and the returned result map is empty — every untouched persisted id is
omitted from the result rather than reported `UNCHANGED`. -/
theorem upsert_untouched_amended (exercise_id : Int) (batch : List Submission)
    (force : Bool) (db : DBState)
    (out : DBState × List (Int × UpdateResult) × List (Int × Submission))
    (h : upsert_submissions exercise_id batch force db = Except.ok out) :
    out.1 = db ∧ out.2.1 = [] ∧ out.2.2 = [] ∧ batch = []
      ∧ hasExercise db exercise_id = false
      ∧ (∀ r ∈ db.submissions, r ∈ out.1.submissions) := by
  obtain ⟨hout, hbatch, hex⟩ :=
    upsert_ok_characterization exercise_id batch force db out h
  subst hout
  exact ⟨rfl, rfl, rfl, hbatch, hex, fun r hr => hr⟩

/-- C5 witness: the amended theorem applied to the empty-batch merge over
`db7x`: the store comes back untouched and the result map is empty. -/
theorem upsert_untouched_amended_witness :
    ((db7x, [], []) :
        DBState × List (Int × UpdateResult) × List (Int × Submission)).1 = db7x
    ∧ ((db7x, [], []) :
        DBState × List (Int × UpdateResult) × List (Int × Submission)).2.1 = []
    ∧ ((db7x, [], []) :
        DBState × List (Int × UpdateResult) × List (Int × Submission)).2.2 = []
    ∧ ([] : List Submission) = []
    ∧ hasExercise db7x 10 = false
    ∧ (∀ r ∈ db7x.submissions,
        r ∈ ((db7x, [], []) :
          DBState × List (Int × UpdateResult) × List (Int × Submission)).1.submissions) :=
  upsert_untouched_amended 10 [] false db7x (db7x, [], []) rfl

/-- C7: the monotone progression is unexhibitable in the staged code: every
`assess` round either returns with the persisted state unchanged (the abort
paths, and a declined proceed-confirmation, which is a no-op) or raises
`OperationalError` inside `storage.update_submission`, whose UPDATE assigns
the nonexistent `submission_type` column — so no completing phase ever
persists the claimed strictly higher state. -/
theorem assess_never_persists :
    (∀ env s s2, assess env s = Except.ok s2 → s2 = s)
    ∧ assess allYesEnv SubmissionState.SUBMITTED
        = Except.error noSuchColumnError
    ∧ assess { allYesEnv with proceed := false } SubmissionState.SUBMITTED
        = Except.ok SubmissionState.SUBMITTED
    ∧ (∀ submission db,
        update_submission submission db = Except.error noSuchColumnError)
    ∧ ("submission_type" ∈ updateSubmissionsSetColumns
        ∧ "submission_type" ∉ submissionsTableColumns) :=
  ⟨assess_fix, rfl, rfl, fun _ _ => rfl, by decide, by decide⟩

/-- C8: `reset` sets exactly the state field of the in-memory submission and
changes nothing else, but the persistence call always raises: the UPDATE of
`update_submission` assigns the nonexistent `submission_type` column, so
the new state is never persisted (and nothing is deleted — the store is not
touched at all). -/
theorem reset_not_persisted (submission : Submission)
    (target : SubmissionState) (db : DBState) :
    (Assessor.reset submission target db).1.state = target
    ∧ (Assessor.reset submission target db).1.id = submission.id
    ∧ (Assessor.reset submission target db).1.exercise = submission.exercise
    ∧ (Assessor.reset submission target db).1.content = submission.content
    ∧ (Assessor.reset submission target db).1.contributions
        = submission.contributions
    ∧ (Assessor.reset submission target db).1.submission_type
        = submission.submission_type
    ∧ (Assessor.reset submission target db).1.submission_group_id
        = submission.submission_group_id
    ∧ (Assessor.reset submission target db).1.submission_group_name
        = submission.submission_group_name
    ∧ (Assessor.reset submission target db).1.submitted_at
        = submission.submitted_at
    ∧ (Assessor.reset submission target db).1.graded_at = submission.graded_at
    ∧ (Assessor.reset submission target db).1.extended_to
        = submission.extended_to
    ∧ (Assessor.reset submission target db).1.grade = submission.grade
    ∧ (Assessor.reset submission target db).1.testresult_file
        = submission.testresult_file
    ∧ (Assessor.reset submission target db).1.comment_file
        = submission.comment_file
    ∧ (Assessor.reset submission target db).1.feedback_file
        = submission.feedback_file
    ∧ (Assessor.reset submission target db).2 = Except.error noSuchColumnError :=
  ⟨rfl, rfl, rfl, rfl, rfl, rfl, rfl, rfl, rfl, rfl, rfl, rfl, rfl, rfl, rfl,
    rfl⟩
